import Mathlib

/-!
Shallow embedding of `src/api_rest/views.py` and `src/api_rest/models.py`
of the Django_API_Rest repository.

Conventions of the embedding:
* The process-global `spotify_tokens` dictionary (views.py line 26) is
  modelled as `Option TokenSet`: `none` is the initial empty dict `{}`
  (falsy in Python), `some ts` a populated dict.
* Network calls (`requests.post` / `requests.get`) are modelled by taking
  the upstream HTTP response as an explicit argument; only the fields the
  Python code reads are represented.
* Django REST framework `Response(body, status)` values returned by a view
  are modelled as explicit result constructors carrying the status code
  and the message string.
* Python exceptions (e.g. `IndexError` from `track["artists"][0]` on an
  empty artist list, `AttributeError` from `None.append`, the `raise`
  statement in `get_top_tracks`) are modelled by `raised` constructors.
* Wall-clock time in the polling loop is modelled as a natural number of
  elapsed seconds, advancing by 1 at each `time.sleep(1)`.
-/

/-- The contents of the global `spotify_tokens` dict once populated by
`callback` (views.py lines 84-88): access token, optional refresh token,
expiry time. -/
structure TokenSet where
  access_token : String
  refresh_token : Option String
  expires_in : Nat
deriving DecidableEq, Repr

/-- The upstream response to the token-exchange POST in `callback`
(views.py line 80): status code plus the JSON fields the code reads
(`access_token`, `refresh_token` via `.get`, `expires_in`). -/
structure TokenPostResponse where
  status_code : Nat
  access_token : String
  refresh_token : Option String
  expires_in : Nat
deriving DecidableEq, Repr

/-- Body of the HTTP response produced by the `callback` view: either the
token dictionary (status 200) or an error-message dictionary (status 400). -/
inductive CallbackBody where
  | tokens (ts : TokenSet)
  | error (msg : String)
deriving DecidableEq, Repr

/-- `callback` (views.py lines 49-98): exchanges the authorization code for
tokens.  Takes the current global token store and the upstream POST
response; returns the new token store plus the view's HTTP response
(body, status).  On upstream status 200 it overwrites the global store and
returns it with status 200; otherwise it returns the error message with
status 400. -/
def callback (st : Option TokenSet) (r : TokenPostResponse) :
    Option TokenSet × (CallbackBody × Nat) :=
  if r.status_code = 200 then
    let ts : TokenSet := ⟨r.access_token, r.refresh_token, r.expires_in⟩
    (some ts, (CallbackBody.tokens ts, 200))
  else
    (st, (CallbackBody.error "Error al obtener el token de acceso.", 400))

/-- Observable actions performed by `get_spotify_token` when the store is
empty: building the auth URL (views.py line 117), opening the browser
(line 118), and each check of the shared variable in the polling loop
(line 123). -/
inductive Event where
  | buildUrl
  | openBrowser
  | pollCheck
deriving DecidableEq, Repr

/-- Result of `get_spotify_token`: the access token string, or the
408-timeout `Response` of views.py lines 125-130, or (in the fuel model of
the loop) exhaustion of the step budget, which stands for an infinite
wait. -/
inductive TokenFetchResult where
  | token (t : String)
  | timeoutResponse (status : Nat) (msg : String)
  | diverged
deriving DecidableEq, Repr

/-- The timeout error message of views.py line 127. -/
def timeoutMsg : String :=
  "Se agotó el tiempo de espera. No se pudo obtener el token de acceso."

/-- The `while not spotify_tokens:` loop of views.py lines 123-131.
`avail t` is the contents of the global store `t` seconds after the loop
started (the callback endpoint may populate it concurrently); `timeout` is
the 120-second limit of line 120.  Each iteration checks the store, then
the elapsed time (`time.time() - start_time > timeout`, i.e. `timeout < t`),
then sleeps one second.  The loop is given an explicit fuel of iterations;
running out of fuel (`diverged`) models a wait that never ends.  On exit
with a populated store the code reads `spotify_tokens["access_token"]`
(line 133). -/
def pollLoop (avail : Nat → Option TokenSet) (timeout : Nat) :
    Nat → Nat → List Event × TokenFetchResult
  | 0, _ => ([], TokenFetchResult.diverged)
  | fuel + 1, t =>
    match avail t with
    | some ts => ([Event.pollCheck], TokenFetchResult.token ts.access_token)
    | none =>
      if timeout < t then
        ([Event.pollCheck], TokenFetchResult.timeoutResponse 408 timeoutMsg)
      else
        let rest := pollLoop avail timeout fuel (t + 1)
        (Event.pollCheck :: rest.1, rest.2)

/-- `get_spotify_token` (views.py lines 101-135).  If the global store is
populated it returns the stored access token at once; otherwise it builds
the auth URL, opens the browser, and polls the store with a 120-second
timeout and 1-second sleeps.  Fuel 122 covers every reachable iteration
(checks at t = 0 .. 121). -/
def get_spotify_token (st : Option TokenSet) (avail : Nat → Option TokenSet) :
    List Event × TokenFetchResult :=
  match st with
  | some ts => ([], TokenFetchResult.token ts.access_token)
  | none =>
    let r := pollLoop avail 120 122 0
    (Event.buildUrl :: Event.openBrowser :: r.1, r.2)

/-- The Spotify authorize endpoint constant of views.py line 21. -/
def SPOTIFY_AUTH_URL : String := "https://accounts.spotify.com/authorize"

/-- `spotify_auth` (views.py lines 34-46): builds the authorization URL
from the configured client id, redirect URI and scope, returned as a
dictionary with the single key `auth_url`.  The configuration values come
from the environment, so they are parameters here. -/
def spotify_auth (clientId redirectUri scope : String) :
    List (String × String) :=
  let auth_url :=
    SPOTIFY_AUTH_URL ++ "?" ++
    "response_type=code&client_id=" ++ clientId ++
    "&redirect_uri=" ++ redirectUri ++
    "&scope=" ++ scope
  [("auth_url", auth_url)]

/-- The authorization URL as the spec describes it: the authorize endpoint
with query parameters `response_type=code`, the client id, the redirect
URI and the scope, in that order. -/
def spotify_auth_spec_url (clientId redirectUri scope : String) : String :=
  "https://accounts.spotify.com/authorize?response_type=code" ++
  "&client_id=" ++ clientId ++
  "&redirect_uri=" ++ redirectUri ++
  "&scope=" ++ scope

/-- Outcome of a helper view function: a normally returned value, a
returned DRF error `Response` (status, message), or a raised Python
exception (described by a string). -/
inductive PyOutcome (α : Type) where
  | ok (v : α)
  | httpError (status : Nat) (msg : String)
  | raised (msg : String)
deriving DecidableEq, Repr

/-- One item of the `search_data["tracks"]["items"]` list read by
`get_track_info` (views.py lines 162-171): the fields the comprehension
accesses (`name`, the artist name list, album name / release date /
type). -/
structure TrackItem where
  name : String
  artists : List String
  album_name : String
  album_release_date : String
  album_type : String
deriving DecidableEq, Repr

/-- The upstream response to the search GET of views.py line 159. -/
structure SearchResponse where
  status_code : Nat
  items : List TrackItem
deriving DecidableEq, Repr

/-- One dictionary of the list built by `get_track_info` (views.py lines
163-169). -/
structure TrackInfoOut where
  track_name : String
  artist : String
  album : String
  release_date : String
  album_type : String
deriving DecidableEq, Repr

/-- One row of the comprehension in `get_track_info`:
`track["artists"][0]` raises `IndexError` (modelled as `none`) when the
artist list is empty. -/
def trackRow (it : TrackItem) : Option TrackInfoOut :=
  match it.artists with
  | [] => none
  | a :: _ =>
    some ⟨it.name, a, it.album_name, it.album_release_date, it.album_type⟩

/-- The whole comprehension of views.py lines 162-171: fails (raises) as
soon as one row fails. -/
def trackRows : List TrackItem → Option (List TrackInfoOut)
  | [] => some []
  | it :: rest =>
    match trackRow it, trackRows rest with
    | some r, some rs => some (r :: rs)
    | _, _ => none

/-- `get_track_info` (views.py lines 138-177): on upstream status 200 it
reshapes the items (raising `IndexError` if some item has no artists),
otherwise it returns a 400 error `Response`. -/
def get_track_info (r : SearchResponse) : PyOutcome (List TrackInfoOut) :=
  if r.status_code = 200 then
    match trackRows r.items with
    | some rows => PyOutcome.ok rows
    | none => PyOutcome.raised "IndexError: list index out of range"
  else
    PyOutcome.httpError 400 "Error al obtener las canciones."

/-- One item of `tracks_data["items"]` read by `get_top_tracks`
(views.py lines 285-292). -/
structure TopTrackItem where
  name : String
  artists : List String
  album_name : String
deriving DecidableEq, Repr

/-- The upstream response to the top-tracks GET of views.py line 282. -/
structure TopTracksResponse where
  status_code : Nat
  items : List TopTrackItem
deriving DecidableEq, Repr

/-- One dictionary of the list built by `get_top_tracks` (views.py lines
286-290). -/
structure TopTrackOut where
  track_name : String
  artist : String
  album : String
deriving DecidableEq, Repr

/-- The `{"top_tracks": tracks}` dictionary returned by `get_top_tracks`
on success (views.py line 293). -/
structure TopTracksOut where
  top_tracks : List TopTrackOut
deriving DecidableEq, Repr

/-- One row of the comprehension in `get_top_tracks`; `track["artists"][0]`
raises on an empty artist list. -/
def topTrackRow (it : TopTrackItem) : Option TopTrackOut :=
  match it.artists with
  | [] => none
  | a :: _ => some ⟨it.name, a, it.album_name⟩

/-- The whole comprehension of views.py lines 285-292. -/
def topTrackRows : List TopTrackItem → Option (List TopTrackOut)
  | [] => some []
  | it :: rest =>
    match topTrackRow it, topTrackRows rest with
    | some r, some rs => some (r :: rs)
    | _, _ => none

/-- `get_top_tracks` (views.py lines 260-298): on upstream status 200 it
reshapes the items; on any other status it executes
`raise Response(..., status=400)` (line 295) — a raise of a
non-exception value, modelled as `raised`, not as a returned
`httpError`. -/
def get_top_tracks (r : TopTracksResponse) : PyOutcome TopTracksOut :=
  if r.status_code = 200 then
    match topTrackRows r.items with
    | some rows => PyOutcome.ok ⟨rows⟩
    | none => PyOutcome.raised "IndexError: list index out of range"
  else
    PyOutcome.raised
      "TypeError from raise Response(Error al obtener las canciones, status=400): exceptions must derive from BaseException"

/-- One item of `artists_data["items"]` read by `get_top_artists`
(views.py lines 245-251). -/
structure ArtistItem where
  name : String
  genres : List String
deriving DecidableEq, Repr

/-- The upstream response to the top-artists GET of views.py line 242. -/
structure TopArtistsResponse where
  status_code : Nat
  items : List ArtistItem
deriving DecidableEq, Repr

/-- One dictionary of the list built by `get_top_artists`. -/
structure ArtistOut where
  name : String
  genres : List String
deriving DecidableEq, Repr

/-- The `{"top_artists": artists}` dictionary returned by
`get_top_artists` on success (views.py line 252). -/
structure TopArtistsOut where
  top_artists : List ArtistOut
deriving DecidableEq, Repr

/-- `get_top_artists` (views.py lines 220-257): on upstream status 200 it
reshapes the items, otherwise it returns a 400 error `Response`. -/
def get_top_artists (r : TopArtistsResponse) : PyOutcome TopArtistsOut :=
  if r.status_code = 200 then
    PyOutcome.ok ⟨r.items.map fun a => ⟨a.name, a.genres⟩⟩
  else
    PyOutcome.httpError 400 "Error al obtener los artistas"

/-- The JSON value stored under the `track_info` key by `add_preferences`
(views.py lines 201-205): whatever `get_track_info` returned — the
reshaped track list on success, or the error `Response` object itself when
the search failed (the code appends it without checking). -/
inductive TrackInfoVal where
  | info (rows : List TrackInfoOut)
  | errResponse (status : Nat) (msg : String)
deriving DecidableEq, Repr

/-- One entry of a user's preference list: the dictionary
`{"track_info": track_info}` appended by views.py lines 201-205. -/
structure PrefEntry where
  track_info : TrackInfoVal
deriving DecidableEq, Repr

/-- A row of the `User` table (models.py lines 3-6): `name`, unique
`email`, and the JSON `preferences` field, which is nullable
(`null=True`) — `none` models SQL NULL / Python `None`, `some l` a JSON
list. -/
structure UserRec where
  id : Nat
  name : String
  email : String
  preferences : Option (List PrefEntry)
deriving DecidableEq, Repr

/-- The `default=list` of models.py line 6: a `User` created without an
explicit preferences value gets the empty list. -/
def defaultPreferences : Option (List PrefEntry) := some []

/-- A `User` built with the field defaults of models.py. -/
def mkUser (id : Nat) (name email : String) : UserRec :=
  ⟨id, name, email, defaultPreferences⟩

/-- Outcome of the `add_preferences` view: the 200 `Response` of views.py
lines 207-217 (confirmation message plus the updated user's name, email
and preferences), or a raised exception. -/
inductive AddPrefOutcome where
  | ok (status : Nat) (msg : String) (name email : String)
      (preferences : List PrefEntry)
  | raised (msg : String)
deriving DecidableEq, Repr

/-- The append-and-save step of `add_preferences` (views.py lines
201-217): `user.preferences.append(...)` raises `AttributeError` when
`preferences` is `None`; otherwise the entry is appended, `user.save()`
writes the record back (every row with the target id is replaced, others
are untouched), and the 200 response is built from the updated user. -/
def appendPref (db : List UserRec) (uid : Nat) (user : UserRec)
    (tv : TrackInfoVal) : List UserRec × AddPrefOutcome :=
  match user.preferences with
  | none =>
    (db, AddPrefOutcome.raised
      "AttributeError: NoneType object has no attribute append")
  | some prefs =>
    let newPrefs := prefs ++ [⟨tv⟩]
    let user' : UserRec := { user with preferences := some newPrefs }
    (db.map fun u => if u.id == uid then user' else u,
     AddPrefOutcome.ok 200 "Preferencias agregadas correctamente"
       user.name user.email newPrefs)

/-- `add_preferences` (views.py lines 180-217).  The database is a list of
user rows; `User.objects.get(id=user_id)` raises `DoesNotExist` when no
row matches.  The Spotify token fetch of line 197 and the search GET
inside `get_track_info` (line 199) only influence the upstream search
response, which is the `searchResp` parameter; the token fetch itself is
kept for fidelity (its result, token or timeout `Response`, is passed on
as the bearer token either way).  Whatever `get_track_info` returns — the
track list or an error `Response` — is appended under `track_info`; only a
raised exception aborts the view. -/
def add_preferences (db : List UserRec) (uid : Nat)
    (st : Option TokenSet) (avail : Nat → Option TokenSet)
    (searchResp : SearchResponse) : List UserRec × AddPrefOutcome :=
  match db.find? (fun u => u.id == uid) with
  | none => (db, AddPrefOutcome.raised "User.DoesNotExist")
  | some user =>
    let _access_token := (get_spotify_token st avail).2
    match get_track_info searchResp with
    | PyOutcome.ok rows => appendPref db uid user (TrackInfoVal.info rows)
    | PyOutcome.httpError s m =>
      appendPref db uid user (TrackInfoVal.errResponse s m)
    | PyOutcome.raised m => (db, AddPrefOutcome.raised m)

/-! ## Helper lemmas -/

/-- The comprehension of `get_track_info` succeeds on items that all have
at least one artist, producing exactly the per-item reshaping in order. -/
theorem trackRows_of_artists_nonempty (items : List TrackItem)
    (h : ∀ it ∈ items, it.artists ≠ []) :
    trackRows items = some (items.map fun it =>
      ⟨it.name, it.artists.headD "", it.album_name, it.album_release_date,
       it.album_type⟩) := by
  induction items with
  | nil => rfl
  | cons it rest ih =>
    have h1 : it.artists ≠ [] := h it (List.mem_cons_self _ _)
    have h2 := ih (fun x hx => h x (List.mem_cons_of_mem _ hx))
    cases hA : it.artists with
    | nil => exact absurd hA h1
    | cons a as => simp [trackRows, trackRow, hA, h2]

/-- The comprehension of `get_top_tracks` succeeds on items that all have
at least one artist, producing exactly the per-item reshaping in order. -/
theorem topTrackRows_of_artists_nonempty (items : List TopTrackItem)
    (h : ∀ it ∈ items, it.artists ≠ []) :
    topTrackRows items = some (items.map fun it =>
      ⟨it.name, it.artists.headD "", it.album_name⟩) := by
  induction items with
  | nil => rfl
  | cons it rest ih =>
    have h1 : it.artists ≠ [] := h it (List.mem_cons_self _ _)
    have h2 := ih (fun x hx => h x (List.mem_cons_of_mem _ hx))
    cases hA : it.artists with
    | nil => exact absurd hA h1
    | cons a as => simp [topTrackRows, topTrackRow, hA, h2]

/-- Shared unfolding of a successful `add_preferences` run: when the user
exists, its preferences field is a list, and the track search raises no
exception, the view returns 200 with exactly one entry appended, the
database is the pointwise update of the target rows, and the appended
entry holds the track lookup result. -/
theorem add_preferences_spec (db : List UserRec) (uid : Nat)
    (st : Option TokenSet) (avail : Nat → Option TokenSet)
    (r : SearchResponse) (user : UserRec) (prefs : List PrefEntry)
    (hu : db.find? (fun u => u.id == uid) = some user)
    (hp : user.preferences = some prefs)
    (ha : ∀ it ∈ r.items, it.artists ≠ []) :
    ∃ e : PrefEntry,
      add_preferences db uid st avail r =
        (db.map (fun u => if u.id == uid then
            { user with preferences := some (prefs ++ [e]) } else u),
         AddPrefOutcome.ok 200 "Preferencias agregadas correctamente"
           user.name user.email (prefs ++ [e])) ∧
      (∀ rows, get_track_info r = PyOutcome.ok rows →
        e.track_info = TrackInfoVal.info rows) := by
  by_cases hs : r.status_code = 200
  · have hrows := trackRows_of_artists_nonempty r.items ha
    have hg : get_track_info r = PyOutcome.ok (r.items.map fun it =>
        ⟨it.name, it.artists.headD "", it.album_name, it.album_release_date,
         it.album_type⟩) := by
      simp [get_track_info, hs, hrows]
    refine ⟨⟨TrackInfoVal.info (r.items.map fun it =>
      ⟨it.name, it.artists.headD "", it.album_name, it.album_release_date,
       it.album_type⟩)⟩, ?_, ?_⟩
    · simp [add_preferences, hu, hg, appendPref, hp]
    · intro rows hrows'
      rw [hg] at hrows'
      cases hrows'
      rfl
  · have hg : get_track_info r =
        PyOutcome.httpError 400 "Error al obtener las canciones." := by
      simp [get_track_info, hs]
    refine ⟨⟨TrackInfoVal.errResponse 400 "Error al obtener las canciones."⟩,
      ?_, ?_⟩
    · simp [add_preferences, hu, hg, appendPref, hp]
    · intro rows hrows'
      rw [hg] at hrows'
      cases hrows'

/-! ## Claim theorems -/

/-- Claim C7: `spotify_auth` builds the authorization URL
deterministically from its configuration — for every client id, redirect
URI and scope it returns a dictionary with the single key `auth_url`
holding the Spotify authorize endpoint with the query parameters
`response_type=code`, the client id, the redirect URI and the scope, in
that order. -/
theorem spotify_auth_builds_auth_url (clientId redirectUri scope : String) :
    spotify_auth clientId redirectUri scope =
      [("auth_url", spotify_auth_spec_url clientId redirectUri scope)] := rfl

/-- Claim C4: the `callback` endpoint exchanges the authorization code via
one POST to the token URL — on upstream status 200 it stores and returns
the dictionary of access token, refresh token and expiry with HTTP 200; on
any other upstream status it returns an error message with HTTP 400. -/
theorem callback_token_exchange (st : Option TokenSet)
    (r : TokenPostResponse) :
    (r.status_code = 200 →
      callback st r =
        (some ⟨r.access_token, r.refresh_token, r.expires_in⟩,
         (CallbackBody.tokens ⟨r.access_token, r.refresh_token, r.expires_in⟩,
          200))) ∧
    (r.status_code ≠ 200 →
      callback st r =
        (st, (CallbackBody.error "Error al obtener el token de acceso.",
              400))) := by
  constructor <;> intro h <;> simp [callback, h]

/-- Witness for C4 at a concrete successful and a concrete failed
exchange. -/
theorem callback_token_exchange_witness :
    callback none ⟨200, "tok", some "ref", 3600⟩ =
      (some ⟨"tok", some "ref", 3600⟩,
       (CallbackBody.tokens ⟨"tok", some "ref", 3600⟩, 200)) ∧
    callback (some ⟨"old", none, 60⟩) ⟨500, "", none, 0⟩ =
      (some ⟨"old", none, 60⟩,
       (CallbackBody.error "Error al obtener el token de acceso.", 400)) :=
  ⟨(callback_token_exchange none ⟨200, "tok", some "ref", 3600⟩).1 rfl,
   (callback_token_exchange (some ⟨"old", none, 60⟩) ⟨500, "", none, 0⟩).2
     (by decide)⟩

/-- Claim C8: the token exchange is atomic with respect to the global
store — a non-200 POST leaves `spotify_tokens` unchanged, and the store is
overwritten only on a status-200 exchange. -/
theorem callback_preserves_store_on_failure (st : Option TokenSet)
    (r : TokenPostResponse) :
    (r.status_code ≠ 200 → (callback st r).1 = st) ∧
    (r.status_code = 200 →
      (callback st r).1 =
        some ⟨r.access_token, r.refresh_token, r.expires_in⟩) := by
  constructor <;> intro h <;> simp [callback, h]

/-- Witness for C8: a failed exchange at status 400 leaves a populated
store intact. -/
theorem callback_preserves_store_on_failure_witness :
    (callback (some ⟨"old", none, 60⟩) ⟨400, "x", none, 1⟩).1 =
      some ⟨"old", none, 60⟩ :=
  (callback_preserves_store_on_failure (some ⟨"old", none, 60⟩)
    ⟨400, "x", none, 1⟩).1 (by decide)

/-- Claim C2 (code bug): on a non-200 upstream status `get_top_tracks`
executes `raise Response(..., status=400)` — it raises instead of
returning an HTTP 4xx response, unlike its sibling `get_top_artists`,
which returns a 400 error response. -/
theorem get_top_tracks_raises_on_failure :
    get_top_tracks ⟨401, []⟩ =
      PyOutcome.raised
        "TypeError from raise Response(Error al obtener las canciones, status=400): exceptions must derive from BaseException" ∧
    (∀ s m, get_top_tracks ⟨401, []⟩ ≠ PyOutcome.httpError s m) ∧
    get_top_artists ⟨401, []⟩ =
      PyOutcome.httpError 400 "Error al obtener los artistas" := by
  refine ⟨rfl, ?_, rfl⟩
  intro s m
  simp [get_top_tracks]

/-- With enough fuel the polling loop never exhausts its step budget: it
produces either a token or the 408 timeout response. -/
theorem pollLoop_total (avail : Nat → Option TokenSet) (timeout : Nat) :
    ∀ n t, timeout + 1 ≤ n + t →
      (∃ tok, (pollLoop avail timeout (n + 1) t).2 =
        TokenFetchResult.token tok) ∨
      (pollLoop avail timeout (n + 1) t).2 =
        TokenFetchResult.timeoutResponse 408 timeoutMsg := by
  intro n
  induction n with
  | zero =>
    intro t ht
    cases hA : avail t with
    | some ts => exact Or.inl ⟨ts.access_token, by simp [pollLoop, hA]⟩
    | none =>
      have hlt : timeout < t := by omega
      exact Or.inr (by simp [pollLoop, hA, hlt])
  | succ n ih =>
    intro t ht
    cases hA : avail t with
    | some ts => exact Or.inl ⟨ts.access_token, by simp [pollLoop, hA]⟩
    | none =>
      by_cases hlt : timeout < t
      · exact Or.inr (by simp [pollLoop, hA, hlt])
      · have := ih (t + 1) (by omega)
        simpa [pollLoop, hA, hlt] using this

/-- Every event emitted by the polling loop is a check of the shared
variable. -/
theorem pollLoop_events (avail : Nat → Option TokenSet) (timeout : Nat) :
    ∀ n t, ∀ e ∈ (pollLoop avail timeout n t).1, e = Event.pollCheck := by
  intro n
  induction n with
  | zero => intro t e he; simp [pollLoop] at he
  | succ n ih =>
    intro t e he
    cases hA : avail t with
    | some ts =>
      simp [pollLoop, hA] at he
      exact he
    | none =>
      by_cases hlt : timeout < t
      · simp [pollLoop, hA, hlt] at he
        exact he
      · simp [pollLoop, hA, hlt] at he
        rcases he with he | he
        · exact he
        · exact ih (t + 1) e he

/-- Claim C3: with an empty token store the wait of `get_spotify_token`
always terminates — either the shared variable is populated within the
120-second window and the access token is produced, or the fixed timeout
elapses and the 408 timeout response is produced; the loop's step budget
(one check per 1-second sleep) is never exhausted. -/
theorem get_spotify_token_wait_terminates (avail : Nat → Option TokenSet) :
    ((∃ tok, (get_spotify_token none avail).2 = TokenFetchResult.token tok) ∨
     (get_spotify_token none avail).2 =
       TokenFetchResult.timeoutResponse 408 timeoutMsg) ∧
    (get_spotify_token none avail).2 ≠ TokenFetchResult.diverged := by
  have h := pollLoop_total avail 120 121 0 (by omega)
  constructor
  · simpa [get_spotify_token] using h
  · rcases h with ⟨tok, h⟩ | h <;>
      simp [get_spotify_token] <;> rw [show (121 : Nat) + 1 = 122 from rfl] at h <;>
      rw [h] <;> simp

/-- Claim C6: `get_spotify_token` performs build-URL, open-browser and
poll, in that order, exactly when the global store is empty; when the
store is populated it returns the stored access token at once with no
observable step. -/
theorem get_spotify_token_step_sequence (st : Option TokenSet)
    (avail : Nat → Option TokenSet) :
    (∀ ts, st = some ts →
      get_spotify_token st avail =
        ([], TokenFetchResult.token ts.access_token)) ∧
    (st = none →
      ∃ evs r, get_spotify_token st avail =
          (Event.buildUrl :: Event.openBrowser :: evs, r) ∧
        ∀ e ∈ evs, e = Event.pollCheck) := by
  constructor
  · intro ts h
    subst h
    rfl
  · intro h
    subst h
    exact ⟨(pollLoop avail 120 122 0).1, (pollLoop avail 120 122 0).2, rfl,
      pollLoop_events avail 120 122 0⟩

/-- Witness for C6: with a populated store the function returns the stored
token with no events; with an empty store and a never-populated variable
it emits build-URL then open-browser then only poll checks. -/
theorem get_spotify_token_step_sequence_witness :
    get_spotify_token (some ⟨"tok", none, 3600⟩) (fun _ => none) =
      ([], TokenFetchResult.token "tok") ∧
    (∃ evs r, get_spotify_token none (fun _ => none) =
        (Event.buildUrl :: Event.openBrowser :: evs, r) ∧
      ∀ e ∈ evs, e = Event.pollCheck) :=
  ⟨(get_spotify_token_step_sequence (some ⟨"tok", none, 3600⟩)
      (fun _ => none)).1 ⟨"tok", none, 3600⟩ rfl,
   (get_spotify_token_step_sequence none (fun _ => none)).2 rfl⟩

/-- Claim C5: on a status-200 upstream response each reshaper maps the
returned items, in order and one output per input item, to the simplified
dictionaries — `get_track_info` to track_name / artist (first listed
artist) / album / release_date / album_type, `get_top_tracks` to
track_name / artist / album, `get_top_artists` to name / genres. -/
theorem reshape_success (r1 : SearchResponse) (r2 : TopTracksResponse)
    (r3 : TopArtistsResponse)
    (h1 : r1.status_code = 200) (ha1 : ∀ it ∈ r1.items, it.artists ≠ [])
    (h2 : r2.status_code = 200) (ha2 : ∀ it ∈ r2.items, it.artists ≠ [])
    (h3 : r3.status_code = 200) :
    (get_track_info r1 = PyOutcome.ok (r1.items.map fun it =>
        ⟨it.name, it.artists.headD "", it.album_name, it.album_release_date,
         it.album_type⟩) ∧
      ∀ rows, get_track_info r1 = PyOutcome.ok rows →
        rows.length = r1.items.length) ∧
    (get_top_tracks r2 = PyOutcome.ok ⟨r2.items.map fun it =>
        ⟨it.name, it.artists.headD "", it.album_name⟩⟩ ∧
      ∀ out, get_top_tracks r2 = PyOutcome.ok out →
        out.top_tracks.length = r2.items.length) ∧
    (get_top_artists r3 = PyOutcome.ok ⟨r3.items.map fun a =>
        ⟨a.name, a.genres⟩⟩ ∧
      ∀ out, get_top_artists r3 = PyOutcome.ok out →
        out.top_artists.length = r3.items.length) := by
  have g1 : get_track_info r1 = PyOutcome.ok (r1.items.map fun it =>
      ⟨it.name, it.artists.headD "", it.album_name, it.album_release_date,
       it.album_type⟩) := by
    simp [get_track_info, h1, trackRows_of_artists_nonempty r1.items ha1]
  have g2 : get_top_tracks r2 = PyOutcome.ok ⟨r2.items.map fun it =>
      ⟨it.name, it.artists.headD "", it.album_name⟩⟩ := by
    simp [get_top_tracks, h2, topTrackRows_of_artists_nonempty r2.items ha2]
  have g3 : get_top_artists r3 = PyOutcome.ok ⟨r3.items.map fun a =>
      ⟨a.name, a.genres⟩⟩ := by
    simp [get_top_artists, h3]
  refine ⟨⟨g1, ?_⟩, ⟨g2, ?_⟩, ⟨g3, ?_⟩⟩
  · intro rows hr
    rw [g1] at hr
    cases hr
    simp
  · intro out hr
    rw [g2] at hr
    cases hr
    simp
  · intro out hr
    rw [g3] at hr
    cases hr
    simp

/-- Witness for C5 on concrete one-item responses. -/
theorem reshape_success_witness :
    (get_track_info ⟨200, [⟨"song", ["a1", "a2"], "alb", "2020-01-01",
        "album"⟩]⟩ =
      PyOutcome.ok [⟨"song", "a1", "alb", "2020-01-01", "album"⟩] ∧
      ∀ rows, get_track_info ⟨200, [⟨"song", ["a1", "a2"], "alb",
          "2020-01-01", "album"⟩]⟩ = PyOutcome.ok rows →
        rows.length = 1) ∧
    (get_top_tracks ⟨200, [⟨"song", ["a1"], "alb"⟩]⟩ =
      PyOutcome.ok ⟨[⟨"song", "a1", "alb"⟩]⟩ ∧
      ∀ out, get_top_tracks ⟨200, [⟨"song", ["a1"], "alb"⟩]⟩ =
          PyOutcome.ok out →
        out.top_tracks.length = 1) ∧
    (get_top_artists ⟨200, [⟨"artistA", ["rock", "pop"]⟩]⟩ =
      PyOutcome.ok ⟨[⟨"artistA", ["rock", "pop"]⟩]⟩ ∧
      ∀ out, get_top_artists ⟨200, [⟨"artistA", ["rock", "pop"]⟩]⟩ =
          PyOutcome.ok out →
        out.top_artists.length = 1) :=
  reshape_success
    ⟨200, [⟨"song", ["a1", "a2"], "alb", "2020-01-01", "album"⟩]⟩
    ⟨200, [⟨"song", ["a1"], "alb"⟩]⟩
    ⟨200, [⟨"artistA", ["rock", "pop"]⟩]⟩
    rfl (by simp) rfl (by simp) rfl

/-- Claim C1: on an existing user whose preferences field is a list,
`add_preferences` leaves the list equal to the old list with exactly one
dictionary appended — the dictionary holding the track lookup result under
the `track_info` key — both in the 200 response and in the saved record;
earlier entries are unchanged and the list never shrinks. -/
theorem add_preferences_appends_exactly_one (db : List UserRec) (uid : Nat)
    (st : Option TokenSet) (avail : Nat → Option TokenSet)
    (r : SearchResponse) (user : UserRec) (prefs : List PrefEntry)
    (hu : db.find? (fun u => u.id == uid) = some user)
    (hp : user.preferences = some prefs)
    (ha : ∀ it ∈ r.items, it.artists ≠ []) :
    ∃ e : PrefEntry,
      (add_preferences db uid st avail r).2 =
        AddPrefOutcome.ok 200 "Preferencias agregadas correctamente"
          user.name user.email (prefs ++ [e]) ∧
      (∀ v ∈ (add_preferences db uid st avail r).1,
        v.id = uid → v.preferences = some (prefs ++ [e])) ∧
      (∀ rows, get_track_info r = PyOutcome.ok rows →
        e.track_info = TrackInfoVal.info rows) := by
  obtain ⟨e, heq, hinfo⟩ := add_preferences_spec db uid st avail r user prefs
    hu hp ha
  refine ⟨e, by rw [heq], ?_, hinfo⟩
  intro v hv hvid
  rw [heq] at hv
  simp only [List.mem_map] at hv
  obtain ⟨w, _, hw⟩ := hv
  by_cases hwid : w.id == uid
  · rw [if_pos hwid] at hw
    rw [← hw]
  · rw [if_neg hwid] at hw
    subst hw
    exact absurd (by simpa using hvid) (by simpa using hwid)

/-- Witness for C1 on a concrete one-user database and a successful empty
search. -/
theorem add_preferences_appends_exactly_one_witness :
    ∃ e : PrefEntry,
      (add_preferences [mkUser 1 "n" "e@x"] 1 none (fun _ => none)
        ⟨200, []⟩).2 =
        AddPrefOutcome.ok 200 "Preferencias agregadas correctamente"
          "n" "e@x" [e] ∧
      (∀ v ∈ (add_preferences [mkUser 1 "n" "e@x"] 1 none (fun _ => none)
          ⟨200, []⟩).1,
        v.id = 1 → v.preferences = some [e]) ∧
      (∀ rows, get_track_info ⟨200, []⟩ = PyOutcome.ok rows →
        e.track_info = TrackInfoVal.info rows) :=
  add_preferences_appends_exactly_one [mkUser 1 "n" "e@x"] 1 none
    (fun _ => none) ⟨200, []⟩ (mkUser 1 "n" "e@x") [] rfl rfl (by simp)

/-- Claim C9: a successful `add_preferences` call modifies only the
preferences field of the targeted user — the saved target rows keep the
user's name and email (which the 200 response also echoes unchanged),
every record with a different id is untouched in both directions, and the
table size is unchanged. -/
theorem add_preferences_frame (db : List UserRec) (uid : Nat)
    (st : Option TokenSet) (avail : Nat → Option TokenSet)
    (r : SearchResponse) (user : UserRec) (prefs : List PrefEntry)
    (hu : db.find? (fun u => u.id == uid) = some user)
    (hp : user.preferences = some prefs)
    (ha : ∀ it ∈ r.items, it.artists ≠ []) :
    (add_preferences db uid st avail r).1.length = db.length ∧
    (∀ v ∈ db, v.id ≠ uid → v ∈ (add_preferences db uid st avail r).1) ∧
    (∀ v ∈ (add_preferences db uid st avail r).1, v.id ≠ uid → v ∈ db) ∧
    (∀ v ∈ (add_preferences db uid st avail r).1, v.id = uid →
      v.name = user.name ∧ v.email = user.email) := by
  obtain ⟨e, heq, -⟩ := add_preferences_spec db uid st avail r user prefs
    hu hp ha
  rw [heq]
  refine ⟨by simp, ?_, ?_, ?_⟩
  · intro v hv hvid
    have hne : (v.id == uid) = false := by simpa using hvid
    have : (if v.id == uid then
        { user with preferences := some (prefs ++ [e]) } else v) = v := by
      rw [hne]
      simp
    exact this ▸ List.mem_map_of_mem _ hv
  · intro v hv hvid
    simp only [List.mem_map] at hv
    obtain ⟨w, hw, hweq⟩ := hv
    by_cases hwid : w.id == uid
    · rw [if_pos hwid] at hweq
      subst hweq
      have huid : user.id = uid := by simpa using List.find?_some hu
      exact absurd huid (by simpa using hvid)
    · rw [if_neg hwid] at hweq
      subst hweq
      exact hw
  · intro v hv hvid
    simp only [List.mem_map] at hv
    obtain ⟨w, hw, hweq⟩ := hv
    by_cases hwid : w.id == uid
    · rw [if_pos hwid] at hweq
      subst hweq
      exact ⟨rfl, rfl⟩
    · rw [if_neg hwid] at hweq
      subst hweq
      exact absurd (by simpa using hvid) (by simpa using hwid)

/-- Witness for C9 on a concrete two-user database: the other user's
record survives unchanged and the target keeps name and email. -/
theorem add_preferences_frame_witness :
    (add_preferences [mkUser 1 "n" "e@x", mkUser 2 "m" "m@x"] 1 none
      (fun _ => none) ⟨200, []⟩).1.length = 2 ∧
    (∀ v ∈ [mkUser 1 "n" "e@x", mkUser 2 "m" "m@x"], v.id ≠ 1 →
      v ∈ (add_preferences [mkUser 1 "n" "e@x", mkUser 2 "m" "m@x"] 1 none
        (fun _ => none) ⟨200, []⟩).1) ∧
    (∀ v ∈ (add_preferences [mkUser 1 "n" "e@x", mkUser 2 "m" "m@x"] 1 none
        (fun _ => none) ⟨200, []⟩).1, v.id ≠ 1 →
      v ∈ [mkUser 1 "n" "e@x", mkUser 2 "m" "m@x"]) ∧
    (∀ v ∈ (add_preferences [mkUser 1 "n" "e@x", mkUser 2 "m" "m@x"] 1 none
        (fun _ => none) ⟨200, []⟩).1, v.id = 1 →
      v.name = "n" ∧ v.email = "e@x") :=
  add_preferences_frame [mkUser 1 "n" "e@x", mkUser 2 "m" "m@x"] 1 none
    (fun _ => none) ⟨200, []⟩ (mkUser 1 "n" "e@x") [] rfl rfl (by simp)

/-- Claim C10: a user created with the model's field defaults gets the
empty list as preferences (so `add_preferences` finds a list), but the
field also admits null — and on a user whose preferences is null the
append step of `add_preferences` raises instead of producing the 200
success response. -/
theorem preferences_default_list_null_fails :
    (∀ i n e, (mkUser i n e).preferences = some []) ∧
    (∀ (db : List UserRec) (uid : Nat) (st : Option TokenSet)
      (avail : Nat → Option TokenSet) (r : SearchResponse) (user : UserRec),
      db.find? (fun u => u.id == uid) = some user →
      user.preferences = none →
      ∃ m, (add_preferences db uid st avail r).2 =
        AddPrefOutcome.raised m) := by
  refine ⟨fun i n e => rfl, ?_⟩
  intro db uid st avail r user hu hp
  cases hg : get_track_info r with
  | ok rows =>
    exact ⟨"AttributeError: NoneType object has no attribute append",
      by simp [add_preferences, hu, hg, appendPref, hp]⟩
  | httpError s m =>
    exact ⟨"AttributeError: NoneType object has no attribute append",
      by simp [add_preferences, hu, hg, appendPref, hp]⟩
  | raised m => exact ⟨m, by simp [add_preferences, hu, hg]⟩

/-- Witness for C10: a default-built user has the empty preference list,
and on a user with null preferences the call raises. -/
theorem preferences_default_list_null_fails_witness :
    (mkUser 1 "a" "b@x").preferences = some [] ∧
    ∃ m, (add_preferences [⟨1, "a", "b@x", none⟩] 1 none (fun _ => none)
      ⟨200, []⟩).2 = AddPrefOutcome.raised m :=
  ⟨preferences_default_list_null_fails.1 1 "a" "b@x",
   preferences_default_list_null_fails.2 [⟨1, "a", "b@x", none⟩] 1 none
     (fun _ => none) ⟨200, []⟩ ⟨1, "a", "b@x", none⟩ rfl rfl⟩
